import Mathlib

/-!
Verification development for the request-argument parsing layer of
quart-restplus (`quart_restplus/reqparse.py`): the `Argument` /
`RequestParser` pair, their `parse` / `parse_args` algorithms, the type
coercion cascade `Argument.convert`, and the Swagger schema projection.

The embedding is shallow: Python values are modelled by the inductive
`Val`, a resolved request location by an ordered association list
(a `MultiDict` is an ordered multi-valued mapping, so a plain list of
key-value pairs preserving insertion order models it), and the request by
a `Request` record mapping location tags to their already-resolved
mappings (callable / awaitable resolution of §`Argument.source` is
outside the parser proper and is modelled as the mapping being already
present on the request).
-/

/-- A single quote character, used when building the error strings that
the Python source writes with quoted fragments. -/
def SQ : String := String.singleton (Char.ofNat 39)

/-- Python runtime values that flow through the parser: `None`, strings,
integers, lists, dicts (ordered key-value pairs), `FileStorage` uploads
(identified by filename), and exception objects stored into the result
container by the bundled-error path of `parse_args`. -/
inductive Val where
  | none
  | str (s : String)
  | int (n : Int)
  | list (vs : List Val)
  | dict (kvs : List (String × Val))
  | file (name : String)
  | exn (msg : String)

mutual

/-- Structural equality on `Val`, modelling Python `==` as used by
`value not in self.choices` and key lookups. -/
def Val.beq : Val → Val → Bool
  | .none, .none => true
  | .str a, .str b => a == b
  | .int a, .int b => a == b
  | .file a, .file b => a == b
  | .exn a, .exn b => a == b
  | .list a, .list b => Val.beqList a b
  | .dict a, .dict b => Val.beqPairs a b
  | _, _ => false

def Val.beqList : List Val → List Val → Bool
  | [], [] => true
  | a :: as, b :: bs => Val.beq a b && Val.beqList as bs
  | _, _ => false

def Val.beqPairs : List (String × Val) → List (String × Val) → Bool
  | [], [] => true
  | (k, a) :: as, (l, b) :: bs => k == l && Val.beq a b && Val.beqPairs as bs
  | _, _ => false

end

instance : BEq Val := ⟨Val.beq⟩

/-- `value is None` check. -/
def Val.isNone : Val → Bool
  | .none => true
  | _ => false

/-- `isinstance(value, str)`; also stands for `hasattr(value, attr)` for
the string methods `strip`, `lower` and `split` consulted by `parse`. -/
def Val.isStr : Val → Bool
  | .str _ => true
  | _ => false

/-- `isinstance(value, dict)`. -/
def Val.isDict : Val → Bool
  | .dict _ => true
  | _ => false

/-- `isinstance(value, FileStorage)`. -/
def Val.isFile : Val → Bool
  | .file _ => true
  | _ => false

/-- Python `str(value)` as needed by the decimal branch of `convert` and
the choice-violation message.  Only the string and integer cases are ever
reached by the parser runs considered here; the remaining cases give a
best-effort textual form. -/
def pyStr : Val → String
  | .none => "None"
  | .str s => s
  | .int n => toString n
  | .list _ => "[...]"
  | .dict _ => "dict"
  | .file n => n
  | .exn m => m

/-- `str.lower()` character by character (ASCII, which covers every
string the parser clients here use). -/
def lowerString (s : String) : String := ⟨s.data.map Char.toLower⟩

/-- Split a character list at every occurrence of the separator,
matching Python `str.split` with a one-character separator (the empty
string yields one empty group). -/
def splitChar (c : Char) : List Char → List (List Char)
  | [] => [[]]
  | x :: xs =>
    if x = c then [] :: splitChar c xs
    else match splitChar c xs with
      | [] => [[x]]
      | g :: gs => (x :: g) :: gs

/-- `str.strip()`. -/
def Val.pyStrip : Val → Val
  | .str s => .str s.trim
  | v => v

/-- `str.lower()`. -/
def Val.pyLower : Val → Val
  | .str s => .str (lowerString s)
  | v => v

/-- `choice.lower()` applied to one entry while folding `self.choices`.
The arguments considered in this development always carry string
choices when folding occurs (Python would raise on a non-string entry,
a path no claim exercises). -/
def Val.choiceLower : Val → Val
  | .str s => .str (lowerString s)
  | v => v

/-- Ordered association-list assignment with Python `dict` semantics:
assigning to an existing key overwrites it in place (keeping its
position); a new key is appended at the end. -/
def setKey {α : Type} (k : String) (v : α) : List (String × α) → List (String × α)
  | [] => [(k, v)]
  | (k', v') :: rest => if k' == k then (k, v) :: rest else (k', v') :: setKey k v rest

/-- Python `dict.update`: assign every pair of `upd` into `base` in order. -/
def updateAll {α : Type} (base upd : List (String × α)) : List (String × α) :=
  upd.foldl (fun acc kv => setKey kv.1 kv.2 acc) base

/-- `dict.pop(k)` guarded by `if k in d` — remove the binding of `k`
(at most one is present in the dicts this is applied to). -/
def popKey (k : String) : List (String × Val) → List (String × Val)
  | [] => []
  | (k', v) :: rest => if k' == k then rest else (k', v) :: popKey k rest

/-- `name in source` membership test on a multi-valued mapping. -/
def containsKey (k : String) (source : List (String × Val)) : Bool :=
  source.any (fun kv => kv.1 == k)

/-- `source.getlist(name)`: every value stored under `name`, in
insertion order. -/
def getlist (k : String) (source : List (String × Val)) : List Val :=
  (source.filter (fun kv => kv.1 == k)).map (fun kv => kv.2)

/-- `dict(multidict)`: one entry per distinct key, keyed in first-appearance
order.  `parse_args` and the strict-mode check only ever consult the keys
of this snapshot, never its values. -/
def dictOfAux (seen : List String) : List (String × Val) → List (String × Val)
  | [] => []
  | (k, v) :: rest =>
    if seen.contains k then dictOfAux seen rest
    else (k, v) :: dictOfAux (k :: seen) rest

def dictOf (l : List (String × Val)) : List (String × Val) := dictOfAux [] l

/-- `operator.replace(eqsign, empty, 1)`: remove the first occurrence of
the character `=` from the operator token. -/
def removeFirstEqAux : List Char → List Char
  | [] => []
  | c :: cs => if c = '=' then cs else c :: removeFirstEqAux cs

def removeFirstEq (s : String) : String := ⟨removeFirstEqAux s.data⟩

/-- The `_friendly_location` table of `reqparse.py`. -/
def friendly_location : List (String × String) :=
  [("json", "the JSON body"),
   ("form", "the post body"),
   ("args", "the query string"),
   ("values", "the post body or the query string"),
   ("headers", "the HTTP headers"),
   ("cookies", "the request" ++ SQ ++ "s cookies"),
   ("files", "an uploaded file")]

/-- The `LOCATIONS` table mapping parser locations to Swagger `in` tags. -/
def LOCATIONS : List (String × String) :=
  [("args", "query"),
   ("form", "formData"),
   ("headers", "header"),
   ("json", "body"),
   ("values", "query"),
   ("files", "formData")]

/-- The builtin primitive types appearing as keys of `PY_TYPES`. -/
inductive Prim where
  | int
  | str
  | bool
  | float
deriving DecidableEq

/-- The `PY_TYPES` table mapping Python primitives to Swagger type names. -/
def PY_TYPES : Prim → String
  | .int => "integer"
  | .str => "string"
  | .bool => "boolean"
  | .float => "number"

/-- `SPLIT_CHAR`. -/
def SPLIT_CHAR : String := ","

/-- An argument `location`: either a single string tag or a sequence of
tags (`isinstance(self.location, str)` distinguishes the two). -/
inductive Location where
  | single (tag : String)
  | multi (tags : List String)

/-- `self.location == cookie-string` as tested by `Argument.__schema__`
(note: the tag tested there is the singular string, `cookie`). -/
def Location.isCookieTag : Location → Bool
  | .single t => t == "cookie"
  | .multi _ => false

/-- `self.location == files-string` as tested by `_handle_arg_type`. -/
def Location.isFilesTag : Location → Bool
  | .single t => t == "files"
  | .multi _ => false

/-- `LOCATIONS.get(self.location, query)`: a non-string (sequence)
location is not a key of the table, so it falls to the default. -/
def locIn : Location → String
  | .single t => (LOCATIONS.lookup t).getD "query"
  | .multi _ => "query"

/-- The friendly description of the location(s), as built by the
missing-required branch of `Argument.parse`: a single location is looked
up in `_friendly_location` (falling back to the tag itself), a sequence
is looked up element-wise and joined with the word or. -/
def friendlyOf : Location → String
  | .single t => (friendly_location.lookup t).getD t
  | .multi ts => String.intercalate " or "
      (ts.map (fun t => (friendly_location.lookup t).getD t))

/-- Outcome of calling a Python callable with a given argument list:
a returned value, a raised `TypeError`, or any other raised exception. -/
inductive CallResult where
  | ok (v : Val)
  | typeError (msg : String)
  | exn (msg : String)

/-- JSON-ish values appearing in a schema fragment. -/
inductive JVal where
  | s (x : String)
  | b (x : Bool)
  | raw (v : Val)
  | obj (kvs : List (String × JVal))

/-- The `type` attribute of an `Argument`: a Python callable together
with the class-level facts the parser and the schema projection inspect
about it.  `call` gives the behaviour of invoking it positionally;
`prim` is its entry in `PY_TYPES` when it is one of the builtin
primitive types (covering the `isinstance(arg.type, Hashable) and
arg.type in PY_TYPES` test); `apidocName` models a `__apidoc__` name;
`schemaFragment` a custom `__schema__` attribute; `marshalFn` is present
exactly when the callable is a `Model` (its value is the behaviour of
`marshal(value, self.type)` on a dict); `isFileStorage` marks the
`FileStorage` class itself. -/
structure PyCallable where
  call : List Val → CallResult
  isDecimal : Bool := false
  prim : Option Prim := Option.none
  apidocName : Option String := Option.none
  schemaFragment : Option (List (String × JVal)) := Option.none
  marshalFn : Option (Val → Val) := Option.none
  isFileStorage : Bool := false

/-- The builtin `str` constructor: one positional argument returns the
textual form; two or three positional arguments attempt decoding and
raise `TypeError` for the values the parser passes. -/
def strType : PyCallable :=
  { call := fun args =>
      match args with
      | [v] => .ok (.str (pyStr v))
      | _ => .typeError "decoding str is not supported"
  , prim := some .str }

/-- Decimal digits to a number, `Option.none` on an empty or non-digit
sequence. -/
def digitsVal (cs : List Char) : Option Nat :=
  if cs.isEmpty then Option.none
  else cs.foldl (fun acc c =>
    match acc with
    | Option.none => Option.none
    | some n => if c.isDigit then some (n * 10 + (c.toNat - 48)) else Option.none) (some 0)

/-- `int(s)` on a string: an optional leading minus sign followed by
decimal digits (the further leniencies of the Python parser — leading
plus, surrounding whitespace, underscores — are not exercised here). -/
def pyToInt (s : String) : Option Int :=
  match s.data with
  | [] => Option.none
  | c :: rest =>
    if c = Char.ofNat 45 then (digitsVal rest).map (fun n => -(n : Int))
    else (digitsVal (c :: rest)).map (fun n => (n : Int))

/-- The builtin `int` constructor: one argument parses an integer (or
raises `ValueError` on a bad literal); two arguments treat the second as
the base and raise `TypeError` for a string base; three or more raise
`TypeError`. -/
def intType : PyCallable :=
  { call := fun args =>
      match args with
      | [v] =>
        (match v with
         | .int n => .ok (.int n)
         | .str s =>
           (match pyToInt s with
            | some n => .ok (.int n)
            | Option.none =>
              .exn ("invalid literal for int() with base 10: " ++ SQ ++ s ++ SQ)
           )
         | _ => .exn "int() argument must be a string or a number")
      | [_, _] => .typeError "str object cannot be interpreted as an integer"
      | _ => .typeError "int() takes at most 2 arguments"
  , prim := some .int }

/-- `decimal.Decimal`: exact from a string; a second positional argument
is the context, unused on a successful conversion; from a non-string the
precision concern the stringify branch exists for is modelled as a
failure; three positional arguments raise `TypeError`. -/
def decimalType : PyCallable :=
  { call := fun args =>
      match args with
      | [.str s] => .ok (.str s)
      | [_] => .exn "conversion from non-string loses precision"
      | [.str s, _] => .ok (.str s)
      | [_, _] => .exn "conversion from non-string loses precision"
      | _ => .typeError "Decimal takes at most 2 arguments"
  , isDecimal := true }

/-- `self.default`: either a plain value or a zero-argument producer
invoked lazily (`callable(self.default)`). -/
inductive DefaultVal where
  | val (v : Val)
  | lazy (f : Unit → Val)

/-- Resolve a default: `self.default() if callable(self.default) else
self.default`. -/
def DefaultVal.resolve : DefaultVal → Val
  | .val v => v
  | .lazy f => f ()

/-- `self.default is not None` is false exactly for the plain value
`None` (a producer is an object, hence not `None`). -/
def DefaultVal.isNoneDefault : DefaultVal → Bool
  | .val .none => true
  | _ => false

/-- The `Argument` declarative descriptor, with the constructor defaults
of `Argument.__init__`. -/
structure Argument where
  name : String
  default : DefaultVal := .val .none
  dest : Option String := Option.none
  required : Bool := false
  ignore : Bool := false
  location : Location := .multi ["json", "values"]
  type : PyCallable := strType
  choices : List Val := []
  action : String := "store"
  help : Option String := Option.none
  case_sensitive : Bool := true
  operators : List String := ["="]
  store_missing : Bool := true
  trim : Bool := false
  nullable : Bool := true

/-- An `Argument` built with only a name, every other option defaulted. -/
def defaultArgument (name : String) : Argument := { name := name }

/-- `Argument.convert`: the `None` guard, the `Model`-on-dict marshal
branch, the `FileStorage` passthrough, then the positional-arity cascade
`type(value, name, op)` / `type(value, name)` / `type(value)`, falling
to the next arity on `TypeError` and substituting `str(value)` into the
two-argument call when the type is `decimal.Decimal`.  A non-`TypeError`
exception propagates (to be caught by `except Exception` in `parse`). -/
def Argument.convert (a : Argument) (value : Val) (op : String) : Except String Val :=
  if value.isNone then
    (if !a.nullable then .error "Must not be null!" else .ok Val.none)
  else if a.type.marshalFn.isSome && value.isDict then
    .ok ((a.type.marshalFn.getD id) value)
  else if value.isFile && a.type.isFileStorage then
    .ok value
  else
    match a.type.call [value, .str a.name, .str op] with
    | .ok v => .ok v
    | .exn m => .error m
    | .typeError _ =>
      match a.type.call [(if a.type.isDecimal then Val.str (pyStr value) else value), .str a.name] with
      | .ok v => .ok v
      | .exn m => .error m
      | .typeError _ =>
        match a.type.call [value] with
        | .ok v => .ok v
        | .exn m => .error m
        | .typeError m => .error m

/-- The arity cascade exactly as the specification words it (§4.2 step
4): attempt `(value, name, operator)`, then `(value, name)`, then
`(value)`, using whichever arity the converter accepts, stringifying the
value for the two-argument invocation of the decimal type.  Stated
separately from `Argument.convert` so that the two can be compared. -/
def convertCascadeSpec (a : Argument) (value : Val) (op : String) : Except String Val :=
  match a.type.call [value, .str a.name, .str op] with
  | .ok v => .ok v
  | .exn m => .error m
  | .typeError _ =>
    match a.type.call [(if a.type.isDecimal then Val.str (pyStr value) else value), .str a.name] with
    | .ok v => .ok v
    | .exn m => .error m
    | .typeError _ =>
      match a.type.call [value] with
      | .ok v => .ok v
      | .exn m => .error m
      | .typeError m => .error m

/-- The request as the parser sees it: each location tag that exists on
the request maps to its already-resolved multi-valued mapping, and
`unparsed` models the `unparsed_arguments` attribute (`Option.none`
models the attribute not having been set, so that reading it raises
`AttributeError`). -/
structure Request where
  sources : List (String × List (String × Val))
  unparsed : Option (List (String × Val)) := Option.none

/-- `Argument.source`: a single location reads the attribute named by
the tag, falling back to an empty mapping when it is absent (or `None`);
a sequence of locations merges each present location into an accumulator
with `MultiDict.update`, which adds the new pairs after the existing
ones. -/
def Argument.source (a : Argument) (req : Request) : List (String × Val) :=
  match a.location with
  | .single tag =>
    (match req.sources.lookup tag with
     | some m => m
     | Option.none => [])
  | .multi tags =>
    tags.foldl (fun acc tag => acc ++ ((req.sources.lookup tag).getD [])) []

/-- The possible outcomes of `Argument.parse`: a normal `(value, found)`
return; the bundled-mode `(ValueError(error), errors-dict)` return
(carrying the text of the wrapped error and the errors mapping); the
fail-fast `abort(400, message, errors)`; or an uncaught `AttributeError`
from reading a missing request attribute. -/
inductive ParseOutcome where
  | ok (value : Val) (found : Bool)
  | bundled (err : String) (errors : List (String × String))
  | aborted (status : Nat) (message : String) (errors : List (String × String))
  | attributeError (attr : String)

/-- `Argument.handle_validation_error`: prefix the optional (truthy)
`help` text, then either return the bundled pair or abort with a 400 and
the single-entry errors mapping. -/
def validationErrorOutcome (a : Argument) (errText : String) (bundle : Bool) : ParseOutcome :=
  let msg := match a.help with
    | some h => if h == "" then errText else h ++ " " ++ errText
    | Option.none => errText
  if bundle then .bundled errText [(a.name, msg)]
  else .aborted 400 "Input payload validation failed" [(a.name, msg)]

/-- The choice-violation message of `Argument.parse` (note that it names
the lookup key, i.e. the name with the operator suffix). -/
def choiceErrMsg (value : Val) (key : String) : String :=
  "The value " ++ SQ ++ pyStr value ++ SQ ++ " is not a valid choice for " ++
    SQ ++ key ++ SQ ++ "."

/-- The missing-required message of `Argument.parse`. -/
def missingErrMsg (a : Argument) : String :=
  "Missing required parameter in " ++ friendlyOf a.location

/-- Convert each comma-separated part of a raw value for
`action == split`; a non-string raw value has no `split` method, and the
raised error is caught by the surrounding `except Exception`. -/
def convertList (a : Argument) (op : String) : List Val → Except String (List Val)
  | [] => .ok []
  | v :: vs => do
    let c ← a.convert v op
    let cs ← convertList a op vs
    .ok (c :: cs)

def convertSplit (a : Argument) (value : Val) (op : String) : Except String Val :=
  match value with
  | .str s => (convertList a op ((splitChar ',' s.data).map (fun g => Val.str ⟨g⟩))).map Val.list
  | _ => .error "object has no attribute split"

/-- The mutable state threaded through the value loop of
`Argument.parse`: the (possibly case-folded) `choices`, the request's
`unparsed_arguments` attribute, and the `results` accumulator. -/
structure PState where
  choices : List Val
  unparsed : Option (List (String × Val))
  results : List Val

/-- The in-place folding of `self.choices` performed when a lowercase
conversion of the value occurred. -/
def foldState (folded : Bool) (st : PState) : PState :=
  if folded then { st with choices := st.choices.map Val.choiceLower } else st

/-- The part of one `for value in values` iteration of `Argument.parse`
after trimming and case folding: conversion (with the `split` variant),
the `ignore` skip (which leaves the state unchanged, like `continue`),
the choice check, removal of the matched key from `unparsed_arguments`
(which reads the attribute and hence raises `AttributeError` when it was
never assigned), and accumulation. -/
def processOneCore (a : Argument) (bundle : Bool) (key op : String) (value : Val)
    (st : PState) : Except (ParseOutcome × PState) PState :=
  match (if a.action == "split" then convertSplit a value op else a.convert value op) with
  | .error e =>
    if a.ignore then .ok st
    else .error (validationErrorOutcome a e bundle, st)
  | .ok v =>
    if !st.choices.isEmpty && !(st.choices.contains v) then
      .error (validationErrorOutcome a (choiceErrMsg v key) bundle, st)
    else
      match st.unparsed with
      | Option.none => .error (.attributeError "unparsed_arguments", st)
      | some u => .ok { st with unparsed := some (popKey key u), results := st.results ++ [v] }

/-- One full iteration of the inner `for value in values` loop of
`Argument.parse`: trim, case folding (of the value and, in place, of the
choices), then the conversion / validation / accumulation core. -/
def processOne (a : Argument) (bundle : Bool) (key op : String) (value : Val)
    (st : PState) : Except (ParseOutcome × PState) PState :=
  let value := if value.isStr && a.trim then value.pyStrip else value
  let folded := value.isStr && !a.case_sensitive
  let value := if folded then value.pyLower else value
  processOneCore a bundle key op value (foldState folded st)

/-- The inner `for value in values` loop of `Argument.parse`: process
each value in turn, stopping at the first validation failure or raised
attribute error. -/
def processValues (a : Argument) (bundle : Bool) (key op : String) :
    List Val → PState → Except (ParseOutcome × PState) PState
  | [], st => .ok st
  | value :: rest, st =>
    match processOne a bundle key op value st with
    | .error e => .error e
    | .ok st => processValues a bundle key op rest st

/-- The outer `for operator in self.operators` loop of `Argument.parse`:
build the lookup key by appending the operator with its first `=`
removed, and process every value stored under that key when present. -/
def processOps (a : Argument) (bundle : Bool) (source : List (String × Val)) :
    List String → PState → Except (ParseOutcome × PState) PState
  | [], st => .ok st
  | op :: ops, st =>
    let key := a.name ++ removeFirstEq op
    if containsKey key source then
      match processValues a bundle key op (getlist key source) st with
      | .error e => .error e
      | .ok st => processOps a bundle source ops st
    else processOps a bundle source ops st

/-- What `Argument.parse` leaves behind: its outcome, the argument's
`choices` after any in-place case folding, and the request's
`unparsed_arguments` after any removals. -/
structure ParseOut where
  outcome : ParseOutcome
  choices : List Val
  unparsed : Option (List (String × Val))

/-- `Argument.parse`: resolve the bundle flag from the app-level
configuration or the call, pull the source, run the operator loop, then
the missing-required check, the default, and the
action-dependent packaging of the accumulated results. -/
def Argument.parse (a : Argument) (req : Request) (appBundle bundleErrors : Bool) : ParseOut :=
  let bundle := appBundle || bundleErrors
  let source := a.source req
  match processOps a bundle source a.operators ⟨a.choices, req.unparsed, []⟩ with
  | .error (out, st) => ⟨out, st.choices, st.unparsed⟩
  | .ok st =>
    if st.results.isEmpty && a.required then
      ⟨validationErrorOutcome a (missingErrMsg a) bundle, st.choices, st.unparsed⟩
    else if st.results.isEmpty then
      ⟨.ok a.default.resolve false, st.choices, st.unparsed⟩
    else if a.action == "append" then
      ⟨.ok (.list st.results) true, st.choices, st.unparsed⟩
    else if a.action == "store" || st.results.length == 1 then
      ⟨.ok (st.results.headD Val.none) true, st.choices, st.unparsed⟩
    else
      ⟨.ok (.list st.results) true, st.choices, st.unparsed⟩

/-- The `RequestParser` collection.  The `argument_class` and
`result_class` knobs are fixed to `Argument` and the plain mapping
result container. -/
structure RequestParser where
  args : List Argument
  trim : Bool := false
  store_missing : Bool := true
  bundle_errors : Bool := false

/-- Outcome of `RequestParser.parse_args`: the result container, the
400-abort carrying the aggregated errors mapping, the strict-mode
`BadRequest` with its description, or a propagated `AttributeError`. -/
inductive ParseArgsOutcome where
  | ok (result : List (String × Val))
  | aborted (status : Nat) (message : String) (errors : List (String × String))
  | badRequest (description : String)
  | attributeError (attr : String)

/-- The `for arg in self.args.values()` loop of `parse_args`: parse each
argument, fold a bundled error pair into the errors mapping (storing the
wrapped `ValueError` object in the result when `store_missing` is set,
since `found` becomes `None`), store found-or-defaulted values under
`dest or name`, and propagate an abort or `AttributeError`. -/
def parseLoop (appBundle pbundle : Bool) :
    List Argument → Request → List (String × Val) → List (String × String) →
    Except ParseArgsOutcome (Request × List (String × Val) × List (String × String))
  | [], req, result, errors => .ok (req, result, errors)
  | arg :: rest, req, result, errors =>
    let out := arg.parse req appBundle pbundle
    let req : Request := { req with unparsed := out.unparsed }
    match out.outcome with
    | .ok v found =>
      let result := if found || arg.store_missing
        then setKey (arg.dest.getD arg.name) v result else result
      parseLoop appBundle pbundle rest req result errors
    | .bundled err errs =>
      let errors := updateAll errors errs
      let result := if arg.store_missing
        then setKey (arg.dest.getD arg.name) (.exn err) result else result
      parseLoop appBundle pbundle rest req result errors
    | .aborted s m e => .error (.aborted s m e)
    | .attributeError s => .error (.attributeError s)

/-- `RequestParser.parse_args`: assign `req.unparsed_arguments` (a dict
snapshot of the default-located source when strict, empty otherwise),
run every argument in insertion order with the parser's bundle flag,
abort with the aggregated errors when any accumulated, then apply the
strict-mode leftover check, and otherwise return the result
container. -/
def RequestParser.parse_args (p : RequestParser) (req : Request)
    (strict : Bool) (appBundle : Bool) : ParseArgsOutcome :=
  let snapshot := if strict then dictOf ((defaultArgument "").source req) else []
  let req : Request := { req with unparsed := some snapshot }
  match parseLoop appBundle p.bundle_errors p.args req [] [] with
  | .error e => e
  | .ok (req, result, errors) =>
    if !errors.isEmpty then
      .aborted 400 "Input payload validation failed" errors
    else
      let u := req.unparsed.getD []
      if strict && !u.isEmpty then
        .badRequest ("Unknown arguments: " ++
          String.intercalate ", " (u.map (fun kv => kv.1)))
      else .ok result

/-- `_handle_arg_type`: a builtin primitive maps through `PY_TYPES`; a
type exposing `__apidoc__` contributes its registered name and forces
`in` to body; a type exposing `__schema__` is merged verbatim; the files
location forces the file type; anything else defaults to string. -/
def handleArgType (a : Argument) (param : List (String × JVal)) : List (String × JVal) :=
  match a.type.prim with
  | some p => setKey "type" (JVal.s (PY_TYPES p)) param
  | Option.none =>
    match a.type.apidocName with
    | some nm => setKey "in" (JVal.s "body") (setKey "type" (JVal.s nm) param)
    | Option.none =>
      match a.type.schemaFragment with
      | some frag => updateAll param frag
      | Option.none =>
        if a.location.isFilesTag then setKey "type" (JVal.s "file") param
        else setKey "type" (JVal.s "string") param

/-- `Argument.__schema__`: `None` for the cookie location tag, otherwise
the parameter record built from name and mapped location, the type
resolution, the optional required / description / default entries, the
array wrapping for the append and split actions (reading the type set so
far into `items` before overwriting it), and finally the enumeration for
a non-empty `choices`, whose multi collection format is written last.
The `items` read of the current type falls back to the string type for
totality; every argument considered here has `type` set at that point,
where Python would otherwise raise `KeyError`. -/
def Argument.schema (a : Argument) : Option (List (String × JVal)) :=
  if a.location.isCookieTag then Option.none
  else
    let param := [("name", JVal.s a.name), ("in", JVal.s (locIn a.location))]
    let param := handleArgType a param
    let param := if a.required then setKey "required" (JVal.b true) param else param
    let param := match a.help with
      | some h => if h == "" then param else setKey "description" (JVal.s h) param
      | Option.none => param
    let param := if !a.default.isNoneDefault
      then setKey "default" (JVal.raw a.default.resolve) param else param
    let param := if a.action == "append" then
        setKey "collectionFormat" (JVal.s "multi") (setKey "type" (JVal.s "array")
          (setKey "items" (JVal.obj [("type", (param.lookup "type").getD (JVal.s "string"))]) param))
      else param
    let param := if a.action == "split" then
        setKey "collectionFormat" (JVal.s "csv") (setKey "type" (JVal.s "array")
          (setKey "items" (JVal.obj [("type", (param.lookup "type").getD (JVal.s "string"))]) param))
      else param
    let param := if !a.choices.isEmpty then
        setKey "collectionFormat" (JVal.s "multi")
          (setKey "enum" (JVal.raw (Val.list a.choices)) param)
      else param
    some param

/-- Does a parameter record carry the given `in` tag? (the membership
test on the `locations` set collected by `RequestParser.__schema__`). -/
def paramInIs (param : List (String × JVal)) (tag : String) : Bool :=
  match param.lookup "in" with
  | some (JVal.s t) => t == tag
  | _ => false

/-- `RequestParser.__schema__`: the per-argument fragments in insertion
order (cookie-tagged arguments contribute `None` and are dropped), with
the specs error when both body and formData parameter kinds occur. -/
def RequestParser.schema (p : RequestParser) :
    Except String (List (List (String × JVal))) :=
  let params := p.args.filterMap (fun a => a.schema)
  if (params.any (fun q => paramInIs q "body")) &&
     (params.any (fun q => paramInIs q "formData")) then
    .error ("Can" ++ SQ ++ "t use formData and body at the same time")
  else .ok params

/-- Standard query-string decoding as the web framework performs it
before the parser runs: pairs split on the ampersand, each pair split at
its first equals sign into key and value.  (This adapter is not part of
`reqparse.py`; it connects query strings such as `foo>=bar` to the keys
the request actually exposes, here `foo>` holding `bar`.) -/
def qsKey : List Char → List Char
  | [] => []
  | c :: cs => if c = '=' then [] else c :: qsKey cs

def qsVal : List Char → List Char
  | [] => []
  | c :: cs => if c = '=' then cs else qsVal cs

def parseQS (s : String) : List (String × Val) :=
  (splitChar '&' s.data).map (fun kv => (⟨qsKey kv⟩, Val.str ⟨qsVal kv⟩))

section Lemmas

@[simp]
theorem removeFirstEq_eq_op : removeFirstEq "=" = "" := rfl

@[simp]
theorem string_append_empty (s : String) : s ++ "" = s := by simp

theorem source_empty_req (a : Argument) (u : Option (List (String × Val))) :
    a.source ⟨[], u⟩ = [] := by
  unfold Argument.source
  cases a.location with
  | single t => rfl
  | multi ts =>
    induction ts with
    | nil => rfl
    | cons t ts ih => simp_all

@[simp]
theorem containsKey_nil (k : String) : containsKey k [] = false := rfl

theorem lookup_setKey_self {α : Type} (k : String) (v : α) (l : List (String × α)) :
    (setKey k v l).lookup k = some v := by
  induction l with
  | nil => simp [setKey]
  | cons kv rest ih =>
    by_cases h : kv.1 == k
    · simp [setKey, h]
    · have h2 : (k == kv.1) = false := by
        rw [beq_eq_false_iff_ne]
        intro e
        exact h (by simp [e])
      simp [setKey, h, List.lookup, h2, ih]

theorem containsKey_of_getlist (k : String) (s : List (String × Val))
    (v : Val) (vs : List Val) (h : getlist k s = v :: vs) :
    containsKey k s = true := by
  induction s with
  | nil => simp [getlist] at h
  | cons kv rest ih =>
    by_cases hk : kv.1 == k
    · simp [containsKey, hk]
    · simp [getlist, List.filter_cons, hk] at h
      simp [containsKey, hk]
      have := ih (by simpa [getlist] using h)
      simpa [containsKey] using this

end Lemmas

/-- Claim C1: for every Argument and every non-null raw value that is
neither a model-typed mapping nor a FileStorage passthrough,
`Argument.convert` invokes the converter by the fixed arity cascade
`(value, name, operator)`, then `(value, name)`, then `(value)`, falling
back exactly when the higher-arity call is not accepted (raises
`TypeError`), and the two-argument invocation of the decimal type
receives `str(value)` instead of the raw value. -/
theorem C1_convert_arity_cascade (a : Argument) (value : Val) (op : String)
    (h1 : value.isNone = false)
    (h2 : (a.type.marshalFn.isSome && value.isDict) = false)
    (h3 : (value.isFile && a.type.isFileStorage) = false) :
    a.convert value op = convertCascadeSpec a value op := by
  simp [Argument.convert, convertCascadeSpec, h1, h2, h3]

/-- A decimal-typed argument used to witness C1. -/
def decArgC1 : Argument := { defaultArgument "n" with type := decimalType }

/-- Witness for C1: on the integer 3 under the decimal type, the cascade
is followed and the two-argument call receives the stringified value. -/
theorem C1_convert_arity_cascade_witness :
    decArgC1.convert (Val.int 3) "=" = convertCascadeSpec decArgC1 (Val.int 3) "=" ∧
    decArgC1.convert (Val.int 3) "=" = Except.ok (Val.str "3") :=
  ⟨C1_convert_arity_cascade decArgC1 (Val.int 3) "=" rfl rfl rfl, rfl⟩

/-- Claim C4: a RequestParser declaring no arguments, given a request
whose source holds the single key foo, fails in strict mode with an
unknown-arguments error naming foo, and returns an empty result
container when strict is off. -/
theorem C4_strict_unknown_arguments (v : Val) :
    RequestParser.parse_args { args := [] }
        ⟨[("values", [("foo", v)])], Option.none⟩ true false
      = ParseArgsOutcome.badRequest "Unknown arguments: foo" ∧
    RequestParser.parse_args { args := [] }
        ⟨[("values", [("foo", v)])], Option.none⟩ false false
      = ParseArgsOutcome.ok [] :=
  ⟨rfl, rfl⟩

/-- The case-insensitive argument with lowercase choices of C7. -/
def argC7 : Argument :=
  { defaultArgument "foo" with choices := [Val.str "bat"], case_sensitive := false }

/-- The same argument but with an uppercase declared choice. -/
def argC7U : Argument :=
  { defaultArgument "foo" with choices := [Val.str "BAT"], case_sensitive := false }

/-- Claim C7: with choices bat and case_sensitive off, both foo=BAT and
foo=bat parse to bat; and when folding occurs every entry of the
argument's choices is permanently lowercased as a side effect (shown
both on already-lowercase choices and on an uppercase-declared
choice). -/
theorem C7_case_insensitive_choices :
    (argC7.parse ⟨[("values", [("foo", Val.str "BAT")])], some []⟩ false false).outcome
      = ParseOutcome.ok (Val.str "bat") true ∧
    (argC7.parse ⟨[("values", [("foo", Val.str "bat")])], some []⟩ false false).outcome
      = ParseOutcome.ok (Val.str "bat") true ∧
    (argC7.parse ⟨[("values", [("foo", Val.str "BAT")])], some []⟩ false false).choices
      = [Val.str "bat"] ∧
    (argC7U.parse ⟨[("values", [("foo", Val.str "bat")])], some []⟩ false false).outcome
      = ParseOutcome.ok (Val.str "bat") true ∧
    (argC7U.parse ⟨[("values", [("foo", Val.str "bat")])], some []⟩ false false).choices
      = [Val.str "bat"] :=
  ⟨rfl, rfl, rfl, rfl, rfl⟩

/-- The range-operator argument of C8. -/
def argC8 : Argument :=
  { defaultArgument "foo" with operators := [">=", "<="], action := "append" }

/-- Counterexample for C8: against a source literally containing the
keys foo>= and foo<=, the argument matches nothing (the computed lookup
keys are foo> and foo<) and parse returns the absent default, not the
sequence bar, bat the claim asserts. -/
theorem C8_counterexample :
    (argC8.parse ⟨[("values", [("foo>=", Val.str "bar"), ("foo<=", Val.str "bat")])],
        some []⟩ false false).outcome
      = ParseOutcome.ok Val.none false ∧
    ParseOutcome.ok Val.none false
      ≠ ParseOutcome.ok (Val.list [Val.str "bar", Val.str "bat"]) true :=
  ⟨rfl, by simp⟩

/-- Claim C8 as amended: the lookup key appends the operator with its
first equals sign removed (foo> and foo<), the decoded form of the query
string foo>=bar&foo<=bat exposes exactly those keys, and parsing it
yields the sequence bar, bat in that order. -/
theorem C8_amended_operator_round_trip :
    removeFirstEq ">=" = ">" ∧
    removeFirstEq "<=" = "<" ∧
    parseQS "foo>=bar&foo<=bat" = [("foo>", Val.str "bar"), ("foo<", Val.str "bat")] ∧
    (argC8.parse ⟨[("values", parseQS "foo>=bar&foo<=bat")], some []⟩ false false).outcome
      = ParseOutcome.ok (Val.list [Val.str "bar", Val.str "bat"]) true :=
  ⟨rfl, rfl, rfl, rfl⟩

/-- An integer argument located at the cookies attribute of the request
(the tag the request actually exposes and the one `_friendly_location`
names). -/
def argCookies : Argument :=
  { defaultArgument "in_cookies" with type := intType, location := .single "cookies" }

/-- The expected schema fragment of `argCookies`. -/
def argCookiesFragment : List (String × JVal) :=
  [("name", JVal.s "in_cookies"), ("in", JVal.s "query"), ("type", JVal.s "integer")]

/-- Counterexample for C5: an Argument located at the cookies location
(tag cookies, the request attribute that actually holds cookies) does
contribute a schema fragment — with in set to query — because the
exclusion in `Argument.__schema__` tests the distinct tag cookie. -/
theorem C5_counterexample :
    argCookies.schema = some argCookiesFragment ∧
    argCookies.schema ≠ Option.none := by
  have e : argCookies.schema = some argCookiesFragment := rfl
  refine ⟨e, ?_⟩
  intro h
  rw [e] at h
  exact Option.noConfusion h

/-- An integer argument with the (singular) cookie location tag, as in
the repository's own schema test. -/
def argCookieTag : Argument :=
  { defaultArgument "in_cookie" with type := intType, location := .single "cookie" }

/-- A plain integer argument at the default location. -/
def argDefaultInt : Argument := { defaultArgument "default" with type := intType }

/-- A two-argument parser whose second argument carries the cookie tag. -/
def parserWithCookieTag : RequestParser := { args := [argDefaultInt, argCookieTag] }

/-- A default argument located at the cookies attribute. -/
def argCookiesLocated : Argument :=
  { defaultArgument "foo" with location := Location.single "cookies" }

/-- Claim C5 as amended: the schema exclusion applies to the location
string cookie (not to cookies, the attribute the request actually
exposes): every Argument with location cookie has no schema fragment and
is omitted from the parser schema, while an Argument located at cookies
is parsed normally at request time (and, per the counterexample, does
emit a fragment). -/
theorem C5_amended_cookie_exclusion :
    (∀ a : Argument, a.location = Location.single "cookie" → a.schema = Option.none) ∧
    parserWithCookieTag.schema
      = Except.ok [[("name", JVal.s "default"), ("in", JVal.s "query"),
                    ("type", JVal.s "integer")]] ∧
    (argCookiesLocated.parse ⟨[("cookies", [("foo", Val.str "bar")])], some []⟩
        false false).outcome
      = ParseOutcome.ok (Val.str "bar") true := by
  refine ⟨?_, rfl, rfl⟩
  intro a h
  simp [Argument.schema, Location.isCookieTag, h]

/-- Witness for C5 (amended): the universal cookie-tag exclusion applied
to a concrete cookie-located argument. -/
theorem C5_amended_cookie_exclusion_witness : argCookieTag.schema = Option.none :=
  C5_amended_cookie_exclusion.1 argCookieTag rfl

/-- The integer argument with choices of C6. -/
def argC6 : Argument :=
  { defaultArgument "foo" with type := intType, choices := [Val.int 1, Val.int 2, Val.int 3] }

/-- Claim C6: the schema of an int-typed argument with choices 1,2,3 at
the default location is exactly the record with keys name, in, type,
enum, collectionFormat holding foo, query, integer, 1-2-3, multi; and
for every non-cookie Argument with non-empty choices and an append or
split action, the enumeration formatting wins: collectionFormat is
multi, overriding the array wrapping's own collection format. -/
theorem C6_schema_choices (a : Argument)
    (hc : a.location.isCookieTag = false)
    (hch : a.choices ≠ [])
    (hact : a.action = "append" ∨ a.action = "split") :
    argC6.schema
      = some [("name", JVal.s "foo"), ("in", JVal.s "query"), ("type", JVal.s "integer"),
              ("enum", JVal.raw (Val.list [Val.int 1, Val.int 2, Val.int 3])),
              ("collectionFormat", JVal.s "multi")] ∧
    a.schema.map (fun q => q.lookup "collectionFormat") = some (some (JVal.s "multi")) := by
  refine ⟨rfl, ?_⟩
  have hb : a.choices.isEmpty = false := by
    cases hl : a.choices with
    | nil => exact absurd hl hch
    | cons c cs => rfl
  rcases hact with ha | ha <;>
    simp [Argument.schema, hc, ha, hb, lookup_setKey_self]

/-- A split-action argument with one choice, witnessing C6. -/
def argC6Split : Argument :=
  { defaultArgument "s" with action := "split", choices := [Val.str "a"] }

/-- Witness for C6: the enumeration override at a concrete split-action
argument with choices. -/
theorem C6_schema_choices_witness :
    argC6Split.schema.map (fun q => q.lookup "collectionFormat")
      = some (some (JVal.s "multi")) :=
  (C6_schema_choices argC6Split rfl (by simp [argC6Split]) (Or.inr rfl)).2

/-- A required argument at a given location, every other option
defaulted. -/
def requiredArg (n : String) (l : Location) : Argument :=
  { defaultArgument n with required := true, location := l }

/-- Claim C2: a RequestParser with bundle_errors enabled holding two
required arguments, parsing a request in which both are absent from
every configured location, raises exactly one validation failure with
status 400, top-level message Input payload validation failed, and an
errors mapping containing exactly the two argument names, each mapped to
a message naming the friendly location description(s) joined with
or. -/
theorem C2_bundle_two_required (n1 n2 : String) (l1 l2 : Location) (h : n1 ≠ n2) :
    RequestParser.parse_args
        { args := [requiredArg n1 l1, requiredArg n2 l2], bundle_errors := true }
        ⟨[], Option.none⟩ false false
      = ParseArgsOutcome.aborted 400 "Input payload validation failed"
          [(n1, "Missing required parameter in " ++ friendlyOf l1),
           (n2, "Missing required parameter in " ++ friendlyOf l2)] := by
  have h2 : (n1 == n2) = false := by
    rw [beq_eq_false_iff_ne]; exact h
  simp [RequestParser.parse_args, parseLoop, Argument.parse, processOps, requiredArg,
        defaultArgument, source_empty_req, validationErrorOutcome, missingErrMsg,
        updateAll, setKey, containsKey, h2]

/-- Witness for C2, mirroring the repository's own bundling test: the
required arguments foo (at values) and bar (at values and cookies),
with the exact friendly-location message strings. -/
theorem C2_bundle_two_required_witness :
    RequestParser.parse_args
        { args := [requiredArg "foo" (Location.single "values"),
                   requiredArg "bar" (Location.multi ["values", "cookies"])],
          bundle_errors := true }
        ⟨[], Option.none⟩ false false
      = ParseArgsOutcome.aborted 400 "Input payload validation failed"
          [("foo", "Missing required parameter in the post body or the query string"),
           ("bar", "Missing required parameter in the post body or the query string or the request" ++ SQ ++ "s cookies")] :=
  (C2_bundle_two_required "foo" "bar" (Location.single "values")
    (Location.multi ["values", "cookies"]) (by decide)).trans (by rfl)

@[simp] theorem defaultArgument_name (n : String) : (defaultArgument n).name = n := rfl

@[simp] theorem defaultArgument_operators (n : String) : (defaultArgument n).operators = ["="] := rfl

@[simp] theorem defaultArgument_choices (n : String) : (defaultArgument n).choices = [] := rfl

@[simp] theorem defaultArgument_action (n : String) : (defaultArgument n).action = "store" := rfl

@[simp] theorem defaultArgument_trim (n : String) : (defaultArgument n).trim = false := rfl

@[simp] theorem defaultArgument_cs (n : String) : (defaultArgument n).case_sensitive = true := rfl

@[simp] theorem defaultArgument_required (n : String) : (defaultArgument n).required = false := rfl

@[simp] theorem defaultArgument_type (n : String) : (defaultArgument n).type = strType := rfl

@[simp] theorem defaultArgument_ignore (n : String) : (defaultArgument n).ignore = false := rfl

@[simp] theorem defaultArgument_nullable (n : String) : (defaultArgument n).nullable = true := rfl

@[simp] theorem defaultArgument_location (n : String) :
    (defaultArgument n).location = Location.multi ["json", "values"] := rfl

@[simp] theorem defaultArgument_default (n : String) :
    (defaultArgument n).default = DefaultVal.val Val.none := rfl

@[simp] theorem defaultArgument_help (n : String) :
    (defaultArgument n).help = Option.none := rfl

/-- The value loop of a default (string-typed, store-action, no-choices,
no-trim, case-sensitive) argument accumulates every string value in
order. -/
theorem processValues_default_strs (n key op : String) (bundle : Bool) :
    ∀ (vs : List Val) (u : List (String × Val)) (rs : List Val),
      (∀ w ∈ vs, w.isStr = true) →
      ∃ u', processValues (defaultArgument n) bundle key op vs ⟨[], some u, rs⟩
        = .ok ⟨[], some u', rs ++ vs⟩ := by
  intro vs
  induction vs with
  | nil => intro u rs _; exact ⟨u, by simp [processValues]⟩
  | cons v vs ih =>
    intro u rs hstr
    obtain ⟨s, hs⟩ : ∃ s, v = .str s := by
      have := hstr v (by simp)
      cases v <;> simp_all [Val.isStr]
    subst hs
    obtain ⟨u', h'⟩ := ih (popKey key u) (rs ++ [Val.str s])
      (fun w hw => hstr w (by simp [hw]))
    refine ⟨u', ?_⟩
    simp [processValues, processOne, processOneCore, foldState, Argument.convert, strType,
          pyStr, Val.isStr, Val.isNone, Val.isFile, Val.isDict,
          show (("store" : String) == "split") = false from rfl, h']

/-- Counterexample for C3: a default store-action argument parsing a
source holding foo twice (bar then bat) returns the first value bar, not
the last value bat the claim asserts. -/
theorem C3_counterexample :
    ((defaultArgument "foo").parse
        ⟨[("values", [("foo", Val.str "bar"), ("foo", Val.str "bat")])], some []⟩
        false false).outcome
      = ParseOutcome.ok (Val.str "bar") true ∧
    Val.str "bar" ≠ Val.str "bat" :=
  ⟨rfl, by simp⟩

/-- Claim C3 as amended: for a store-action argument, when more than one
raw value is present under one operator's lookup key, parse returns a
single scalar equal to the first matching value (first match wins, as
the accumulated results are indexed at zero). -/
theorem C3_amended_store_first_match (n : String) (req : Request)
    (u : List (String × Val)) (ab bb : Bool) (v : Val) (vs : List Val)
    (hu : req.unparsed = some u)
    (hv : getlist n ((defaultArgument n).source req) = v :: vs)
    (hstr : ∀ w ∈ v :: vs, w.isStr = true) :
    ((defaultArgument n).parse req ab bb).outcome = ParseOutcome.ok v true := by
  obtain ⟨u', hpv⟩ := processValues_default_strs n n "=" (ab || bb) (v :: vs) u [] hstr
  have hck := containsKey_of_getlist n _ v vs hv
  simp only [Argument.parse, defaultArgument_operators, defaultArgument_choices, hu]
  simp only [processOps, removeFirstEq_eq_op, defaultArgument_name, string_append_empty,
             hck, if_true, hv]
  simp [hpv]

/-- Witness for C3 (amended): the two-value request again, through the
general first-match theorem. -/
theorem C3_amended_store_first_match_witness :
    ((defaultArgument "foo").parse
        ⟨[("values", [("foo", Val.str "bar"), ("foo", Val.str "bat")])], some []⟩
        false false).outcome
      = ParseOutcome.ok (Val.str "bar") true :=
  C3_amended_store_first_match "foo"
    ⟨[("values", [("foo", Val.str "bar"), ("foo", Val.str "bat")])], some []⟩
    [] false false (Val.str "bar") [Val.str "bat"] rfl rfl
    (by intro w hw; cases hw with
        | head => rfl
        | tail _ h => cases h with
          | head => rfl
          | tail _ h => cases h)

/-- An argument with ignore enabled and a given choices set, every other
option defaulted. -/
def ignoreChoicesArg (n : String) (choices : List Val) : Argument :=
  { defaultArgument n with ignore := true, choices := choices }

/-- Claim C9: for an Argument with ignore enabled and non-empty choices,
a raw value that coerces successfully but is not among the choices still
triggers the validation-error handler — ignore only downgrades values
whose coercion raises, not choice violations. -/
theorem C9_ignore_choice_violation (n s : String) (choices : List Val) (ab bb : Bool)
    (hne : choices.isEmpty = false)
    (hmem : choices.contains (Val.str s) = false) :
    ((ignoreChoicesArg n choices).parse
        ⟨[("values", [(n, Val.str s)])], some []⟩ ab bb).outcome
      = validationErrorOutcome (ignoreChoicesArg n choices)
          (choiceErrMsg (Val.str s) n) (ab || bb) := by
  simp [ignoreChoicesArg, defaultArgument, Argument.parse, Argument.source, processOps,
        processValues, processOne, processOneCore, foldState, Argument.convert, strType,
        pyStr, Val.isStr, Val.isNone, Val.isFile, Val.isDict, containsKey, getlist, hne, hmem,
        show (("store" : String) == "split") = false from rfl]

/-- Witness for C9: the value bar against the choice set x, in fail-fast
mode, aborting with the exact choice-violation message. -/
theorem C9_ignore_choice_violation_witness :
    ((ignoreChoicesArg "foo" [Val.str "x"]).parse
        ⟨[("values", [("foo", Val.str "bar")])], some []⟩ false false).outcome
      = validationErrorOutcome (ignoreChoicesArg "foo" [Val.str "x"])
          (choiceErrMsg (Val.str "bar") "foo") false ∧
    validationErrorOutcome (ignoreChoicesArg "foo" [Val.str "x"])
        (choiceErrMsg (Val.str "bar") "foo") false
      = ParseOutcome.aborted 400 "Input payload validation failed"
          [("foo", "The value " ++ SQ ++ "bar" ++ SQ ++ " is not a valid choice for "
            ++ SQ ++ "foo" ++ SQ ++ ".")] :=
  ⟨C9_ignore_choice_violation "foo" "bar" [Val.str "x"] false false rfl rfl, rfl⟩

/-- The validation-error handler aborts or bundles, never raising an
attribute error. -/
theorem validationErrorOutcome_ne_attr (a : Argument) (e : String) (b : Bool) (s : String) :
    validationErrorOutcome a e b ≠ ParseOutcome.attributeError s := by
  simp only [validationErrorOutcome]
  split <;> simp

/-- Folding the choices leaves the unparsed-arguments attribute
untouched. -/
@[simp] theorem foldState_unparsed (f : Bool) (st : PState) :
    (foldState f st).unparsed = st.unparsed := by
  unfold foldState
  split <;> rfl

/-- The conversion / validation / accumulation core keeps the
unparsed-arguments attribute present and raises no attribute error when
the attribute was assigned. -/
theorem processOneCore_inv (a : Argument) (b : Bool) (k o : String) (value : Val)
    (st : PState) (h : st.unparsed.isSome = true) :
    (∀ st', processOneCore a b k o value st = .ok st' → st'.unparsed.isSome = true) ∧
    (∀ out st', processOneCore a b k o value st = .error (out, st') →
       st'.unparsed.isSome = true ∧ ∀ s, out ≠ ParseOutcome.attributeError s) := by
  obtain ⟨ch, unp, rs⟩ := st
  cases unp with
  | none => simp at h
  | some u =>
    constructor
    · intro st' heq
      simp only [processOneCore] at heq
      split at heq
      · split at heq
        · cases heq; rfl
        · cases heq
      · split at heq
        · cases heq
        · cases heq; rfl
    · intro out st' heq
      simp only [processOneCore] at heq
      split at heq
      · split at heq
        · cases heq
        · cases heq
          exact ⟨rfl, fun s => validationErrorOutcome_ne_attr a _ b s⟩
      · split at heq
        · cases heq
          exact ⟨rfl, fun s => validationErrorOutcome_ne_attr a _ b s⟩
        · cases heq

/-- One value-loop iteration keeps the unparsed-arguments attribute
present and raises no attribute error when the attribute was
assigned. -/
theorem processOne_inv (a : Argument) (b : Bool) (k o : String) (value : Val)
    (st : PState) (h : st.unparsed.isSome = true) :
    (∀ st', processOne a b k o value st = .ok st' → st'.unparsed.isSome = true) ∧
    (∀ out st', processOne a b k o value st = .error (out, st') →
       st'.unparsed.isSome = true ∧ ∀ s, out ≠ ParseOutcome.attributeError s) := by
  simp only [processOne]
  exact processOneCore_inv a b k o _ _ (by simpa using h)

/-- The value loop keeps the unparsed-arguments attribute present and
raises no attribute error when the attribute was assigned. -/
theorem processValues_inv (a : Argument) (b : Bool) (k o : String) :
    ∀ (vs : List Val) (st : PState), st.unparsed.isSome = true →
    (∀ st', processValues a b k o vs st = .ok st' → st'.unparsed.isSome = true) ∧
    (∀ out st', processValues a b k o vs st = .error (out, st') →
       st'.unparsed.isSome = true ∧ ∀ s, out ≠ ParseOutcome.attributeError s) := by
  intro vs
  induction vs with
  | nil =>
    intro st h
    refine ⟨fun st' heq => ?_, fun out st' heq => ?_⟩
    · simp only [processValues] at heq; cases heq; exact h
    · simp only [processValues] at heq; simp at heq
  | cons v vs ih =>
    intro st h
    refine ⟨fun st' heq => ?_, fun out st' heq => ?_⟩
    · simp only [processValues] at heq
      cases hpo : processOne a b k o v st with
      | error e =>
        rw [hpo] at heq
        simp at heq
      | ok st1 =>
        rw [hpo] at heq
        simp only [] at heq
        exact (ih st1 ((processOne_inv a b k o v st h).1 st1 hpo)).1 st' heq
    · simp only [processValues] at heq
      cases hpo : processOne a b k o v st with
      | error e =>
        obtain ⟨o1, s1⟩ := e
        rw [hpo] at heq
        simp at heq
        obtain ⟨rfl, rfl⟩ := heq
        exact (processOne_inv a b k o v st h).2 o1 s1 hpo
      | ok st1 =>
        rw [hpo] at heq
        simp only [] at heq
        exact (ih st1 ((processOne_inv a b k o v st h).1 st1 hpo)).2 out st' heq

/-- The operator loop keeps the unparsed-arguments attribute present
and raises no attribute error when the attribute was assigned. -/
theorem processOps_inv (a : Argument) (b : Bool) (src : List (String × Val)) :
    ∀ (ops : List String) (st : PState), st.unparsed.isSome = true →
    (∀ st', processOps a b src ops st = .ok st' → st'.unparsed.isSome = true) ∧
    (∀ out st', processOps a b src ops st = .error (out, st') →
       st'.unparsed.isSome = true ∧ ∀ s, out ≠ ParseOutcome.attributeError s) := by
  intro ops
  induction ops with
  | nil =>
    intro st h
    refine ⟨fun st' heq => ?_, fun out st' heq => ?_⟩
    · simp only [processOps] at heq; cases heq; exact h
    · simp only [processOps] at heq; simp at heq
  | cons op ops ih =>
    intro st h
    have hpv := processValues_inv a b (a.name ++ removeFirstEq op) op
      (getlist (a.name ++ removeFirstEq op) src) st h
    refine ⟨fun st' heq => ?_, fun out st' heq => ?_⟩
    · simp only [processOps] at heq
      by_cases hck : containsKey (a.name ++ removeFirstEq op) src = true
      · rw [if_pos hck] at heq
        cases hres : processValues a b (a.name ++ removeFirstEq op) op
            (getlist (a.name ++ removeFirstEq op) src) st with
        | error e =>
          rw [hres] at heq
          simp at heq
        | ok st1 =>
          rw [hres] at heq
          simp only [] at heq
          exact (ih st1 (hpv.1 st1 hres)).1 st' heq
      · rw [if_neg hck] at heq
        exact (ih st h).1 st' heq
    · simp only [processOps] at heq
      by_cases hck : containsKey (a.name ++ removeFirstEq op) src = true
      · rw [if_pos hck] at heq
        cases hres : processValues a b (a.name ++ removeFirstEq op) op
            (getlist (a.name ++ removeFirstEq op) src) st with
        | error e =>
          obtain ⟨o1, s1⟩ := e
          rw [hres] at heq
          simp at heq
          obtain ⟨rfl, rfl⟩ := heq
          exact hpv.2 o1 s1 hres
        | ok st1 =>
          rw [hres] at heq
          simp only [] at heq
          exact (ih st1 (hpv.1 st1 hres)).2 out st' heq
      · rw [if_neg hck] at heq
        exact (ih st h).2 out st' heq

/-- `Argument.parse` on a request whose unparsed-arguments attribute is
assigned keeps it assigned and never raises an attribute error. -/
theorem parse_inv (a : Argument) (req : Request) (ab bb : Bool)
    (h : req.unparsed.isSome = true) :
    (a.parse req ab bb).unparsed.isSome = true ∧
    ∀ s, (a.parse req ab bb).outcome ≠ ParseOutcome.attributeError s := by
  have hops := processOps_inv a (ab || bb) (a.source req) a.operators
    ⟨a.choices, req.unparsed, []⟩ (by simpa using h)
  cases hres : processOps a (ab || bb) (a.source req) a.operators
      ⟨a.choices, req.unparsed, []⟩ with
  | error e =>
    obtain ⟨out, st⟩ := e
    obtain ⟨h1, h2⟩ := hops.2 out st hres
    constructor
    · simp only [Argument.parse, hres]
      exact h1
    · intro s
      simp only [Argument.parse, hres]
      exact h2 s
  | ok st =>
    have h1 := hops.1 st hres
    constructor
    · simp only [Argument.parse, hres]
      repeat' split
      all_goals simpa using h1
    · intro s
      simp only [Argument.parse, hres]
      repeat' split
      all_goals simp [validationErrorOutcome_ne_attr]

/-- The argument loop of `parse_args` never propagates an attribute
error when the unparsed-arguments attribute was assigned. -/
theorem parseLoop_inv (ab pb : Bool) :
    ∀ (args : List Argument) (req : Request)
      (res : List (String × Val)) (errs : List (String × String)),
      req.unparsed.isSome = true →
      ∀ s, parseLoop ab pb args req res errs
        ≠ Except.error (ParseArgsOutcome.attributeError s) := by
  intro args
  induction args with
  | nil =>
    intro req res errs h s
    simp [parseLoop]
  | cons arg rest ih =>
    intro req res errs h s
    have hp := parse_inv arg req ab pb h
    simp only [parseLoop]
    cases hout : (arg.parse req ab pb).outcome with
    | ok v found =>
      exact ih { req with unparsed := (arg.parse req ab pb).unparsed } _ _ (by simpa using hp.1) s
    | bundled err errs2 =>
      exact ih { req with unparsed := (arg.parse req ab pb).unparsed } _ _ (by simpa using hp.1) s
    | aborted s2 m e => simp
    | attributeError s2 => exact absurd hout (hp.2 s2)

/-- `parse_args` assigns `req.unparsed_arguments` before parsing any
argument, so it can never surface an attribute error. -/
theorem parse_args_never_attributeError (p : RequestParser) (req : Request)
    (strict ab : Bool) (s : String) :
    p.parse_args req strict ab ≠ ParseArgsOutcome.attributeError s := by
  simp only [RequestParser.parse_args]
  cases hpl : parseLoop ab p.bundle_errors p.args
      { req with unparsed := some (if strict then dictOf ((defaultArgument "").source req) else []) } [] [] with
  | error e =>
    intro hcontra
    simp only [] at hcontra
    subst hcontra
    exact parseLoop_inv ab p.bundle_errors p.args
      { req with unparsed := some (if strict then dictOf ((defaultArgument "").source req) else []) }
      [] [] (by simp) s hpl
  | ok trip =>
    obtain ⟨req2, res, errs⟩ := trip
    simp only []
    split
    · simp
    · split <;> simp


/-- An ignore-enabled integer-typed argument used against an unprepared
request. -/
def argIgnoreInt : Argument :=
  { defaultArgument "foo" with type := intType, ignore := true }

/-- Counterexample for C10: a value is found (foo holds bar) on a
request never prepared by parse_args, yet parse does not fail with an
attribute error — the conversion fails first and ignore skips the value,
so the unparsed-arguments read is never executed. -/
theorem C10_counterexample :
    (argIgnoreInt.parse ⟨[("values", [("foo", Val.str "bar")])], Option.none⟩
        false false).outcome
      = ParseOutcome.ok Val.none false ∧
    ParseOutcome.ok Val.none false ≠ ParseOutcome.attributeError "unparsed_arguments" :=
  ⟨rfl, by simp⟩

/-- Claim C10 as amended: Argument.parse reads req.unparsed_arguments
for every matched value that survives conversion and the choices check,
so calling it directly on a request that was not first prepared by
parse_args fails with an attribute error whenever such a value is found
(a found value skipped by ignore or rejected by validation never reaches
the read); parse_args always assigns req.unparsed_arguments before
parsing any argument — its result is independent of any prior value of
the attribute and an attribute error can never surface from it. -/
theorem C10_amended_unparsed_arguments :
    (∀ n s : String,
      ((defaultArgument n).parse ⟨[("values", [(n, Val.str s)])], Option.none⟩
          false false).outcome
        = ParseOutcome.attributeError "unparsed_arguments") ∧
    (∀ (p : RequestParser) (req : Request) (strict ab : Bool)
        (u : Option (List (String × Val))),
      p.parse_args { req with unparsed := u } strict ab = p.parse_args req strict ab) ∧
    (∀ (p : RequestParser) (req : Request) (strict ab : Bool) (s : String),
      p.parse_args req strict ab ≠ ParseArgsOutcome.attributeError s) := by
  refine ⟨?_, ?_, ?_⟩
  · intro n s
    simp [Argument.parse, Argument.source, processOps, processValues, processOne,
          processOneCore, foldState, Argument.convert, strType, pyStr, Val.isStr,
          Val.isNone, Val.isFile, Val.isDict, containsKey, getlist, List.lookup,
          show (("store" : String) == "split") = false from rfl]
  · intro p req strict ab u
    cases req
    rfl
  · exact parse_args_never_attributeError
